import Mathlib

/-!
# Verification of the Heritage Guide front-end script (`static/js/app.js`)

The repository consists of a single browser script wiring three handlers:

* `sendChatMessage`   — the conversational assistant client;
* the `change` handler on the `camera-input` element — the landmark
  recognition client;
* `playResultVoice`   — the audio-guide playback client;

plus `closeResult` and a keypress handler that forwards "Enter" to
`sendChatMessage`.

We shallowly embed the script: the DOM elements the script touches become
fields of a `PageState` record, JavaScript runtime values (the parsed JSON
responses and the two `window` globals) become the inductive `JsValue`,
property access with its null/undefined `TypeError` becomes the
`Except`-valued `getField`, and each `async` handler becomes a pure function
from the current state and the outcome of its single `fetch` (transport or
JSON-parse failure, or a parsed `JsValue`) to the next state together with
the list of HTTP requests it issued.  Exceptions inside a `try` block are
modelled by `Except PageState PageState`: the `error` constructor carries
the partially mutated state at the moment of the throw, so the `catch`
clause is applied to exactly the state the browser would have.

JavaScript numbers are modelled as exact rationals (`Rat`), with
`jsNumToString` reproducing the decimal rendering used when a number is
interpolated into a template string.
-/

/-- A JavaScript runtime value, as produced by `response.json()` and as held
by the `window.currentScanText` / `window.currentScanLang` globals.
`undefined` is the JavaScript `undefined` (the initial value of the globals, and
the result of reading an absent property). -/
inductive JsValue where
  | undefined : JsValue
  | null : JsValue
  | bool (b : Bool) : JsValue
  | num (q : Rat) : JsValue
  | str (s : String) : JsValue
  | obj (fields : List (String × JsValue)) : JsValue

/-- JavaScript strict equality `v === "t"` against a string literal, the
only comparison the script performs on response data. -/
def JsValue.isStr (v : JsValue) (t : String) : Bool :=
  match v with
  | .str s => s = t
  | _ => false

/-- JavaScript property access `v.k`.  Reading a property of `null` or
`undefined` throws a `TypeError` (`.error ()`); reading an absent property
of an object, or any property of another primitive, yields `undefined`. -/
def getField : JsValue → String → Except Unit JsValue
  | .undefined, _ => .error ()
  | .null, _ => .error ()
  | .obj fields, k =>
      .ok (match fields.lookup k with
           | some v => v
           | none => .undefined)
  | _, _ => .ok .undefined

/-- JavaScript truthiness, as used by `if (!query)`, `if (!text)`,
`if (data.audio_url)` and `window.currentScanLang || 'ta'`. -/
def JsValue.truthy : JsValue → Bool
  | .undefined => false
  | .null => false
  | .bool b => b
  | .num q => decide (q ≠ 0)
  | .str s => decide (s ≠ "")
  | .obj _ => true

/-- Smallest exponent `k ≤ 100` with `d ∣ 10 ^ k`, if one exists; used to
render a rational with a finite decimal expansion the way JavaScript
prints the corresponding number. -/
def pow10Exponent (d : Nat) : Option Nat :=
  (List.range 101).find? (fun k => 10 ^ k % d == 0)

/-- Decimal rendering of a JavaScript number: integers print without a
decimal point, other finitely-representable rationals print with the
shortest decimal expansion (JavaScript's shortest round-trip rendering of
a double that denotes a decimal literal). -/
def jsNumToString (q : Rat) : String :=
  if q.den = 1 then toString q.num
  else
    match pow10Exponent q.den with
    | some k =>
        let scaled : Nat := q.num.natAbs * (10 ^ k / q.den)
        let intPart : Nat := scaled / 10 ^ k
        let fracPart : Nat := scaled % 10 ^ k
        let fracStr : String := toString fracPart
        let padding : String := String.mk (List.replicate (k - fracStr.length) '0')
        (if q.num < 0 then "-" else "") ++ toString intPart ++ "." ++ padding ++ fracStr
    | none => toString q.num ++ "/" ++ toString q.den

/-- JavaScript string conversion of a value, as performed by template-string
interpolation and by assignment to `innerText` / the `Audio` constructor. -/
def jsToString : JsValue → String
  | .undefined => "undefined"
  | .null => "null"
  | .bool b => if b then "true" else "false"
  | .num q => jsNumToString q
  | .str s => s
  | .obj _ => "[object Object]"

/-- An HTTP request issued by the script, identified structurally: the
endpoint together with the data the script puts into the request.  (URL
encoding of the query-string parameters is a transport detail and is not
modelled; the constructors carry the strings the script interpolates.) -/
inductive Request where
  | chatAsk (query lang : String) : Request
  | recognitionScan : Request
  | voiceGuide (text lang : String) : Request
deriving DecidableEq

/-- Outcome of one `fetch` + `response.json()` pair: either a transport or
JSON-parse failure (either `await` throwing), or the parsed value. -/
inductive FetchOutcome where
  | failure : FetchOutcome
  | success (data : JsValue) : FetchOutcome

/-- The DOM and global state the script reads and writes.
`chatBoxHTML` is the `innerHTML` of `#chat-box`; `chatScrolledToBottom`
records the `scrollTop = scrollHeight` assignment; `overlayHidden` is
whether `#scan-result-overlay` has the `hidden` class; `currentScanText`
and `currentScanLang` are the `window` globals (initially `undefined`);
`playedAudio` records each URL passed to `new Audio(...).play()`;
`consoleErrors` records each `console.error` diagnostic tag. -/
structure PageState where
  chatBoxHTML : String
  userQueryValue : String
  langSelectorValue : String
  chatScrolledToBottom : Bool
  landmarkName : String
  landmarkDesc : String
  mapLinkHref : String
  overlayHidden : Bool
  currentScanText : JsValue
  currentScanLang : JsValue
  playedAudio : List String
  consoleErrors : List String

/-- The page as loaded: empty chat log and inputs, overlay hidden, globals
`undefined`.  The language selector's initial value comes from the HTML
(not part of the script), so it is a parameter. -/
def initState (lang0 : String) : PageState where
  chatBoxHTML := ""
  userQueryValue := ""
  langSelectorValue := lang0
  chatScrolledToBottom := false
  landmarkName := ""
  landmarkDesc := ""
  mapLinkHref := ""
  overlayHidden := true
  currentScanText := .undefined
  currentScanLang := .undefined
  playedAudio := []
  consoleErrors := []

/-- JavaScript `String.prototype.trim`: strip leading and trailing
whitespace. -/
def jsTrim (s : String) : String :=
  String.mk (((s.data.dropWhile Char.isWhitespace).reverse.dropWhile
    Char.isWhitespace).reverse)

/-- The user-message line appended to the chat log:
`<div class="user-msg"><strong>You:</strong> ${query}</div>`. -/
def userMsgDiv (query : String) : String :=
  "<div class=\"user-msg\"><strong>You:</strong> " ++ query ++ "</div>"

/-- The assistant line appended on a success status:
`<div class="bot-msg"><strong>AI:</strong> ${data.text}</div>`. -/
def botMsgDiv (text : String) : String :=
  "<div class=\"bot-msg\"><strong>AI:</strong> " ++ text ++ "</div>"

/-- The fallback assistant line appended by the chat `catch` clause. -/
def chatErrorDiv : String :=
  "<div class=\"bot-msg error\">Sorry, I encountered an error.</div>"

/-- The maps-directions URL template
`https://www.google.com/maps/dir/?api=1&destination=${lat},${lng}`. -/
def mapsDirUrl (lat lng : String) : String :=
  "https://www.google.com/maps/dir/?api=1&destination=" ++ lat ++ "," ++ lng

/-- The `try` body of `sendChatMessage` after the response is parsed:
test `data.status === "success"`, and if so append the assistant line and
scroll.  A thrown `TypeError` (reading `status` on `null`/`undefined`)
surfaces as `.error` carrying the state at the throw. -/
def chatTry (s : PageState) (data : JsValue) : Except PageState PageState :=
  match getField data "status" with
  | .error _ => .error s
  | .ok status =>
      if status.isStr "success" then
        match getField data "text" with
        | .error _ => .error s
        | .ok t =>
            .ok { s with
                  chatBoxHTML := s.chatBoxHTML ++ botMsgDiv (jsToString t),
                  chatScrolledToBottom := true }
      else .ok s

/-- `sendChatMessage()`: trim the query; if empty return immediately;
otherwise append the user line, clear the input, POST to
`/api/chatbot/ask`, and handle the response inside `try`/`catch`. -/
def sendChatMessage (s : PageState) (net : FetchOutcome) : PageState × List Request :=
  let lang := s.langSelectorValue
  let query := jsTrim s.userQueryValue
  if query = "" then (s, [])
  else
    let s1 : PageState :=
      { s with
        chatBoxHTML := s.chatBoxHTML ++ userMsgDiv query,
        userQueryValue := "" }
    match net with
    | .failure =>
        ({ s1 with
           chatBoxHTML := s1.chatBoxHTML ++ chatErrorDiv,
           consoleErrors := s1.consoleErrors ++ ["Chat Error"] },
         [Request.chatAsk query lang])
    | .success data =>
        match chatTry s1 data with
        | .ok s2 => (s2, [Request.chatAsk query lang])
        | .error s2 =>
            ({ s2 with
               chatBoxHTML := s2.chatBoxHTML ++ chatErrorDiv,
               consoleErrors := s2.consoleErrors ++ ["Chat Error"] },
             [Request.chatAsk query lang])

/-- The `catch` clause of the camera-input change handler: log, then show
the fixed unreachable-vision-server message. -/
def scanCatch (s : PageState) : PageState :=
  { s with
    consoleErrors := s.consoleErrors ++ ["Scan Error"],
    landmarkName := "Error",
    landmarkDesc := "Could not reach the vision server." }

/-- The `try` body of the camera-input change handler after the response is
parsed.  On `status === "success"`: set the name, set the description,
build the map link from `data.coordinates.lat` / `.lng` (property access on
a `null`/`undefined` `coordinates` throws), then stage
`window.currentScanText` / `window.currentScanLang`.  Otherwise show
"Unknown Landmark" and the server message.  `.error` carries the partially
mutated state at the moment of the throw. -/
def scanTry (s : PageState) (data : JsValue) : Except PageState PageState :=
  match getField data "status" with
  | .error _ => .error s
  | .ok status =>
      if status.isStr "success" then
        match getField data "name" with
        | .error _ => .error s
        | .ok nm =>
            let s1 : PageState := { s with landmarkName := jsToString nm }
            match getField data "history" with
            | .error _ => .error s1
            | .ok hist =>
                let s2 : PageState := { s1 with landmarkDesc := jsToString hist }
                match getField data "coordinates" with
                | .error _ => .error s2
                | .ok coords =>
                    match getField coords "lat" with
                    | .error _ => .error s2
                    | .ok lat =>
                        match getField coords "lng" with
                        | .error _ => .error s2
                        | .ok lng =>
                            let s3 : PageState :=
                              { s2 with
                                mapLinkHref :=
                                  mapsDirUrl (jsToString lat) (jsToString lng) }
                            .ok { s3 with
                                  currentScanText := hist,
                                  currentScanLang := .str s.langSelectorValue }
      else
        match getField data "message" with
        | .error _ => .error s
        | .ok msg =>
            .ok { s with
                  landmarkName := "Unknown Landmark",
                  landmarkDesc := jsToString msg }

/-- The `change` handler on `#camera-input`.  With no selected file it
returns immediately; otherwise it shows the loading placeholder, reveals
the overlay, POSTs the file to `/api/recognition/scan`, and handles the
response inside `try`/`catch`. -/
def scanHandler (s : PageState) (hasFile : Bool) (net : FetchOutcome) :
    PageState × List Request :=
  if hasFile = false then (s, [])
  else
    let s1 : PageState :=
      { s with landmarkName := "Analyzing Landmark...", overlayHidden := false }
    match net with
    | .failure => (scanCatch s1, [Request.recognitionScan])
    | .success data =>
        match scanTry s1 data with
        | .ok s2 => (s2, [Request.recognitionScan])
        | .error s2 => (scanCatch s2, [Request.recognitionScan])

/-- The `try` body of `playResultVoice` after the response is parsed: if
`data.audio_url` is truthy, construct an `Audio` from it and play. -/
def voiceTry (s : PageState) (data : JsValue) : Except PageState PageState :=
  match getField data "audio_url" with
  | .error _ => .error s
  | .ok u =>
      if JsValue.truthy u then
        .ok { s with playedAudio := s.playedAudio ++ [jsToString u] }
      else .ok s

/-- `playResultVoice()`: read the staged globals, default the language to
`'ta'` when falsy, return immediately when the staged text is falsy,
otherwise GET `/api/chatbot/voice-guide` and handle the response inside
`try`/`catch`. -/
def playResultVoice (s : PageState) (net : FetchOutcome) : PageState × List Request :=
  let text := s.currentScanText
  let lang := if JsValue.truthy s.currentScanLang then s.currentScanLang
              else JsValue.str "ta"
  if !(JsValue.truthy text) then (s, [])
  else
    let req := Request.voiceGuide (jsToString text) (jsToString lang)
    match net with
    | .failure =>
        ({ s with consoleErrors := s.consoleErrors ++ ["Voice Error"] }, [req])
    | .success data =>
        match voiceTry s data with
        | .ok s2 => (s2, [req])
        | .error s2 =>
            ({ s2 with consoleErrors := s2.consoleErrors ++ ["Voice Error"] }, [req])

/-- `closeResult()`: add the `hidden` class back to the overlay. -/
def closeResult (s : PageState) : PageState :=
  { s with overlayHidden := true }

/-- The keypress handler bound on `#user-query`: on the "Enter" key it
invokes `sendChatMessage`; any other key does nothing. -/
def keypressHandler (s : PageState) (key : String) (net : FetchOutcome) :
    PageState × List Request :=
  if key = "Enter" then sendChatMessage s net else (s, [])

/-- One DOM-originated event of the page lifetime: an invocation of one of
the script's handlers (carrying its fetch outcome), a user edit of one of
the two input controls, or the overlay dismissal.  The browser's
single-threaded event loop serialises these. -/
inductive Event where
  | chat (net : FetchOutcome) : Event
  | keypress (key : String) (net : FetchOutcome) : Event
  | setQuery (v : String) : Event
  | setLang (v : String) : Event
  | scan (hasFile : Bool) (net : FetchOutcome) : Event
  | play (net : FetchOutcome) : Event
  | close : Event

/-- The state transition and issued requests for one event. -/
def stepEvent (s : PageState) : Event → PageState × List Request
  | .chat net => sendChatMessage s net
  | .keypress key net => keypressHandler s key net
  | .setQuery v => ({ s with userQueryValue := v }, [])
  | .setLang v => ({ s with langSelectorValue := v }, [])
  | .scan hasFile net => scanHandler s hasFile net
  | .play net => playResultVoice s net
  | .close => (closeResult s, [])

/-- The state after one event. -/
def stepState (s : PageState) (e : Event) : PageState :=
  (stepEvent s e).1

/-- The state reached from page load after a sequence of events. -/
def runTrace (lang0 : String) (events : List Event) : PageState :=
  events.foldl stepState (initState lang0)

/-- Whether a parsed scan response drives the success branch of the
camera-input handler all the way through staging: status `"success"` and a
`coordinates` value whose `lat`/`lng` properties can be read without a
`TypeError`. -/
def scanStages (data : JsValue) : Bool :=
  match getField data "status" with
  | .error _ => false
  | .ok status =>
      if status.isStr "success" then
        match getField data "coordinates" with
        | .error _ => false
        | .ok coords =>
            match getField coords "lat" with
            | .error _ => false
            | .ok _ =>
                match getField coords "lng" with
                | .error _ => false
                | .ok _ => true
      else false

/-- An event that completes a successful scan: a camera-input change with a
selected file whose response parses and drives the success branch through
staging. -/
def isSuccessfulScan : Event → Bool
  | .scan true (.success data) => scanStages data
  | _ => false

/-- The spec's example of a successful scan response:
`{status:"success", name:"Big Temple", history:"...", coordinates:{lat:11.1,lng:78.2}}`. -/
def sampleScanData : JsValue :=
  .obj [("status", .str "success"), ("name", .str "Big Temple"),
        ("history", .str "A millennium-old Chola temple."),
        ("coordinates", .obj [("lat", .num 11.1), ("lng", .num 78.2)])]

/-- A page state whose query field holds the text "hi". -/
def chatState : PageState := { initState "en" with userQueryValue := "hi" }

/-- A page state whose query field holds " hi ", text with surrounding
whitespace. -/
def chatStateWs : PageState := { initState "en" with userQueryValue := " hi " }

/-- A parsed chat/scan response reporting a non-success status. -/
def errorStatusData : JsValue := .obj [("status", .str "error")]

/-- A scan response with a success status whose `coordinates` value is an
object carrying neither `lat` nor `lng`. -/
def emptyCoordsData : JsValue :=
  .obj [("status", .str "success"), ("name", .str "X"), ("history", .str "H"),
        ("coordinates", .obj [])]

/-- A scan response with a success status and no `coordinates` field at
all. -/
def absentCoordsData : JsValue :=
  .obj [("status", .str "success"), ("name", .str "X"), ("history", .str "H")]

/-- A page state in which a successful scan has staged the description "H"
for playback. -/
def stagedState : PageState :=
  { initState "en" with currentScanText := .str "H" }

/-- C1: for every scan response with status "success" carrying name `n`,
history `h0` and numeric coordinates `lat`/`lng`, the camera-input change
handler sets the displayed landmark name to `n`, the displayed description
to `h0`, sets the map link to the maps-directions URL built from the raw
numeric coordinates, and stages the playback globals: `currentScanText`
becomes the history value and `currentScanLang` becomes the language
selector's current value. -/
theorem scan_success_populates (s : PageState) (n h0 : String) (lat lng : Rat) :
    scanHandler s true (.success (JsValue.obj
      [("status", .str "success"), ("name", .str n), ("history", .str h0),
       ("coordinates", .obj [("lat", .num lat), ("lng", .num lng)])])) =
    ({ s with
       landmarkName := n,
       landmarkDesc := h0,
       overlayHidden := false,
       mapLinkHref := mapsDirUrl (jsNumToString lat) (jsNumToString lng),
       currentScanText := .str h0,
       currentScanLang := .str s.langSelectorValue },
     [Request.recognitionScan]) := rfl

/-- C2: for every input string whose trimmed value is empty, `sendChatMessage`
is a no-op: it issues no request and leaves the whole page state, including
the chat log and input field, unchanged. -/
theorem chat_blank_noop (s : PageState) (net : FetchOutcome)
    (h : jsTrim s.userQueryValue = "") :
    sendChatMessage s net = (s, []) := by
  simp [sendChatMessage, h]

/-- Witness for `chat_blank_noop`: a whitespace-only query field. -/
theorem chat_blank_noop_witness :
    jsTrim ({ initState "en" with userQueryValue := "   " } : PageState).userQueryValue = "" ∧
    sendChatMessage { initState "en" with userQueryValue := "   " } .failure =
      ({ initState "en" with userQueryValue := "   " }, []) :=
  ⟨by decide,
   chat_blank_noop { initState "en" with userQueryValue := "   " } .failure (by decide)⟩

/-- C5: for every scan response whose status is not "success" and that
carries a message `m`, the handler shows "Unknown Landmark" as the name and
`m` as the description, and leaves the playback globals (`currentScanText`,
`currentScanLang`) unchanged from their previous values. -/
theorem scan_nonsuccess_shows_message (s : PageState) (st : JsValue) (m : String)
    (h : st.isStr "success" = false) :
    scanHandler s true (.success (JsValue.obj [("status", st), ("message", .str m)])) =
    ({ s with
       landmarkName := "Unknown Landmark",
       landmarkDesc := m,
       overlayHidden := false },
     [Request.recognitionScan]) := by
  simp [scanHandler, scanTry, getField, h, jsToString, List.lookup]

/-- Witness for `scan_nonsuccess_shows_message`: the spec's example
`{status:"error", message:"no match"}`. -/
theorem scan_nonsuccess_shows_message_witness :
    (JsValue.str "error").isStr "success" = false ∧
    scanHandler (initState "en") true
        (.success (JsValue.obj [("status", .str "error"), ("message", .str "no match")])) =
      ({ initState "en" with
         landmarkName := "Unknown Landmark",
         landmarkDesc := "no match",
         overlayHidden := false },
       [Request.recognitionScan]) :=
  ⟨rfl, scan_nonsuccess_shows_message (initState "en") (.str "error") "no match" rfl⟩

/-- C6: for every transport or parsing failure during a scan request, the
handler returns normally (the exception is caught), shows "Error" as the
name and the fixed unreachable-vision-server message as the description,
and leaves the playback globals unchanged. -/
theorem scan_transport_failure (s : PageState) :
    scanHandler s true .failure =
    ({ s with
       landmarkName := "Error",
       landmarkDesc := "Could not reach the vision server.",
       overlayHidden := false,
       consoleErrors := s.consoleErrors ++ ["Scan Error"] },
     [Request.recognitionScan]) := rfl

/-- Whatever branch the chat `try` body takes, the resulting state only ever
extends the chat log, and leaves the query field and the staged playback
globals untouched. -/
theorem chatTry_fields (s t : PageState) (d : JsValue)
    (h : chatTry s d = .ok t ∨ chatTry s d = .error t) :
    (∃ r, t.chatBoxHTML = s.chatBoxHTML ++ r) ∧
    t.userQueryValue = s.userQueryValue ∧
    t.currentScanText = s.currentScanText ∧
    t.currentScanLang = s.currentScanLang := by
  unfold chatTry at h
  rcases h with h | h <;> (repeat' split at h) <;> cases h <;>
    first
      | exact ⟨⟨_, rfl⟩, rfl, rfl, rfl⟩
      | exact ⟨⟨"", by simp⟩, rfl, rfl, rfl⟩

/-- C3, counterexample: with the query field holding " hi " (non-empty once
trimmed) and a non-success response, the chat log does not gain a user line
showing the raw untrimmed text " hi " — the code interpolates the trimmed
query, not the original input. -/
theorem chat_raw_query_counterexample :
    ¬ ((sendChatMessage chatStateWs (.success errorStatusData)).1.chatBoxHTML =
        chatStateWs.chatBoxHTML ++ userMsgDiv " hi ") := by
  decide

/-- C3, amended: for every input whose trimmed value is non-empty,
`sendChatMessage` appends a user line showing the trimmed query (not the
raw untrimmed text), clears the input field, and issues the request
carrying the trimmed query and the selected language. -/
theorem chat_appends_trimmed (s : PageState) (net : FetchOutcome)
    (h : ¬ jsTrim s.userQueryValue = "") :
    (∃ rest, (sendChatMessage s net).1.chatBoxHTML =
        s.chatBoxHTML ++ userMsgDiv (jsTrim s.userQueryValue) ++ rest) ∧
    (sendChatMessage s net).1.userQueryValue = "" ∧
    (sendChatMessage s net).2 =
      [Request.chatAsk (jsTrim s.userQueryValue) s.langSelectorValue] := by
  unfold sendChatMessage
  simp only []
  rw [if_neg h]
  cases net with
  | failure =>
      refine ⟨⟨chatErrorDiv, ?_⟩, rfl, rfl⟩
      simp [String.append_assoc]
  | success data =>
      cases hc : chatTry
          { s with chatBoxHTML := s.chatBoxHTML ++ userMsgDiv (jsTrim s.userQueryValue),
                   userQueryValue := "" } data with
      | ok t =>
          obtain ⟨⟨r, hr⟩, hq, _, _⟩ := chatTry_fields _ t data (Or.inl hc)
          simp only [hc]
          exact ⟨⟨r, by simp [hr, String.append_assoc]⟩, hq, trivial⟩
      | error t =>
          obtain ⟨⟨r, hr⟩, hq, _, _⟩ := chatTry_fields _ t data (Or.inr hc)
          simp only [hc]
          exact ⟨⟨r ++ chatErrorDiv, by simp [hr, String.append_assoc]⟩, hq, trivial⟩

/-- Witness for `chat_appends_trimmed`: the query " hi " trims to the
non-empty "hi". -/
theorem chat_appends_trimmed_witness :
    (¬ jsTrim " hi " = "") ∧
    (∃ rest, (sendChatMessage chatStateWs .failure).1.chatBoxHTML =
        chatStateWs.chatBoxHTML ++ userMsgDiv (jsTrim " hi ") ++ rest) :=
  ⟨by decide, (chat_appends_trimmed chatStateWs .failure (by decide)).1⟩

/-- C4: for every parsed chat response carrying a status other than
"success", no assistant line is appended: the final state differs from the
initial one only by the user line and the cleared input field, and the one
request that was issued. -/
theorem chat_nonsuccess_drops (s : PageState) (data st : JsValue)
    (hq : ¬ jsTrim s.userQueryValue = "")
    (hst : getField data "status" = .ok st)
    (hns : st.isStr "success" = false) :
    sendChatMessage s (.success data) =
    ({ s with chatBoxHTML := s.chatBoxHTML ++ userMsgDiv (jsTrim s.userQueryValue),
              userQueryValue := "" },
     [Request.chatAsk (jsTrim s.userQueryValue) s.langSelectorValue]) := by
  simp [sendChatMessage, hq, chatTry, hst, hns]

/-- Witness for `chat_nonsuccess_drops`: the query "hi" with response
`{status:"error"}`. -/
theorem chat_nonsuccess_drops_witness :
    (¬ jsTrim "hi" = "") ∧
    getField errorStatusData "status" = .ok (.str "error") ∧
    (JsValue.str "error").isStr "success" = false ∧
    sendChatMessage chatState (.success errorStatusData) =
      ({ chatState with
         chatBoxHTML := chatState.chatBoxHTML ++ userMsgDiv (jsTrim chatState.userQueryValue),
         userQueryValue := "" },
       [Request.chatAsk (jsTrim chatState.userQueryValue) chatState.langSelectorValue]) :=
  ⟨by decide, rfl, rfl,
   chat_nonsuccess_drops chatState errorStatusData (.str "error") (by decide) rfl rfl⟩

/-- C9: for every page state whose query field is non-empty once trimmed,
the keypress handler on an "Enter" key produces exactly the same state and
the same issued requests as calling `sendChatMessage` directly. -/
theorem enter_key_equals_send (s : PageState) (net : FetchOutcome)
    (_h : ¬ jsTrim s.userQueryValue = "") :
    keypressHandler s "Enter" net = sendChatMessage s net := by
  simp [keypressHandler]

/-- Witness for `enter_key_equals_send`: the query "hi". -/
theorem enter_key_equals_send_witness :
    (¬ jsTrim "hi" = "") ∧
    keypressHandler chatState "Enter" .failure = sendChatMessage chatState .failure :=
  ⟨by decide, enter_key_equals_send chatState .failure (by decide)⟩

/-- Truthiness of the JavaScript `undefined` value. -/
theorem truthy_undefined : JsValue.truthy JsValue.undefined = false := rfl

/-- Property access on `undefined` throws. -/
theorem getField_undefined (k : String) : getField JsValue.undefined k = .error () := rfl

/-- Property access on `null` throws. -/
theorem getField_null (k : String) : getField JsValue.null k = .error () := rfl

/-- C8: for every state with a truthy staged text, `playResultVoice`
requests synthesis with that text and with the staged language (falling
back to "ta" when the staged language is falsy, in particular when it is
unset); a response carrying a truthy `audio_url` makes it construct an
audio resource from exactly that URL and initiate playback, while a
response lacking `audio_url` plays nothing. -/
theorem voice_playback (s : PageState)
    (h : JsValue.truthy s.currentScanText = true) :
    (∀ net, (playResultVoice s net).2 =
       [Request.voiceGuide (jsToString s.currentScanText)
          (jsToString (if JsValue.truthy s.currentScanLang then s.currentScanLang
                       else JsValue.str "ta"))]) ∧
    (∀ u, JsValue.truthy u = true →
       (playResultVoice s (.success (.obj [("audio_url", u)]))).1.playedAudio =
         s.playedAudio ++ [jsToString u]) ∧
    (∀ data, getField data "audio_url" = .ok JsValue.undefined →
       (playResultVoice s (.success data)).1.playedAudio = s.playedAudio) := by
  refine ⟨?_, ?_, ?_⟩
  · intro net
    cases net with
    | failure => simp [playResultVoice, h]
    | success data =>
        cases hv : voiceTry s data <;> simp [playResultVoice, h, hv]
  · intro u hu
    simp [playResultVoice, h, voiceTry, getField, hu, List.lookup]
  · intro data hd
    simp [playResultVoice, h, voiceTry, hd, truthy_undefined]

/-- Witness for `voice_playback`: staged text "H", unset language (so the
request carries "ta"), and the spec's voice response
`{audio_url:"http://x/a.mp3"}`. -/
theorem voice_playback_witness :
    JsValue.truthy stagedState.currentScanText = true ∧
    (playResultVoice stagedState .failure).2 = [Request.voiceGuide "H" "ta"] ∧
    (playResultVoice stagedState
        (.success (.obj [("audio_url", .str "http://x/a.mp3")]))).1.playedAudio =
      stagedState.playedAudio ++ ["http://x/a.mp3"] :=
  ⟨rfl, (voice_playback stagedState rfl).1 .failure,
   (voice_playback stagedState rfl).2.1 (.str "http://x/a.mp3") rfl⟩

/-- C10, counterexample: a success response whose `coordinates` is an
object carrying neither `lat` nor `lng` does not raise a caught exception —
reading a missing property of an object yields `undefined` rather than
throwing — so the displayed name stays the response's name instead of
becoming "Error". -/
theorem scan_empty_coords_counterexample :
    ¬ ((scanHandler (initState "en") true (.success emptyCoordsData)).1.landmarkName
        = "Error") := by
  decide

/-- C10, amended: for every scan response with a success status whose
`coordinates` value is absent, `undefined`, or `null` (the values on which
property access throws), the handler catches the `TypeError`, finally shows
"Error" with the fixed unreachable-vision-server description — overwriting
the name and description already written from the response — and leaves the
staged playback globals unchanged. -/
theorem scan_null_coords_caught (s : PageState) (data st nm h0 c : JsValue)
    (hst : getField data "status" = .ok st)
    (hsucc : st.isStr "success" = true)
    (hnm : getField data "name" = .ok nm)
    (hh : getField data "history" = .ok h0)
    (hco : getField data "coordinates" = .ok c)
    (hc : c = JsValue.undefined ∨ c = JsValue.null) :
    scanHandler s true (.success data) =
    ({ s with landmarkName := "Error",
              landmarkDesc := "Could not reach the vision server.",
              overlayHidden := false,
              consoleErrors := s.consoleErrors ++ ["Scan Error"] },
     [Request.recognitionScan]) := by
  rcases hc with rfl | rfl <;>
    simp [scanHandler, scanTry, hst, hsucc, hnm, hh, hco, scanCatch,
      getField_undefined, getField_null]

/-- Witness for `scan_null_coords_caught`: a success response with no
`coordinates` field at all (so reading it yields `undefined`). -/
theorem scan_null_coords_caught_witness :
    getField absentCoordsData "status" = .ok (.str "success") ∧
    getField absentCoordsData "coordinates" = .ok .undefined ∧
    scanHandler (initState "en") true (.success absentCoordsData) =
      ({ initState "en" with
         landmarkName := "Error",
         landmarkDesc := "Could not reach the vision server.",
         overlayHidden := false,
         consoleErrors := (initState "en").consoleErrors ++ ["Scan Error"] },
       [Request.recognitionScan]) :=
  ⟨rfl, rfl,
   scan_null_coords_caught (initState "en") absentCoordsData (.str "success")
     (.str "X") (.str "H") .undefined rfl rfl rfl rfl rfl (Or.inl rfl)⟩

/-- When the scan `try` body completes normally, either it took a path that
never wrote the staged-text global, or the response drove the success
branch through staging. -/
theorem scanTry_ok_scanText (s t : PageState) (d : JsValue)
    (h : scanTry s d = .ok t) :
    t.currentScanText = s.currentScanText ∨ scanStages d = true := by
  unfold scanTry at h
  repeat' split at h
  all_goals cases h
  all_goals first
    | exact Or.inl rfl
    | (right; simp only [scanStages]; simp_all)

/-- When the scan `try` body throws, the staged-text global has not been
written: the assignment to it is the last action of the success branch. -/
theorem scanTry_error_scanText (s t : PageState) (d : JsValue)
    (h : scanTry s d = .error t) :
    t.currentScanText = s.currentScanText := by
  unfold scanTry at h
  repeat' split at h
  all_goals cases h
  all_goals rfl

/-- The voice `try` body never writes the staged-text global. -/
theorem voiceTry_scanText (s t : PageState) (d : JsValue)
    (h : voiceTry s d = .ok t ∨ voiceTry s d = .error t) :
    t.currentScanText = s.currentScanText := by
  rcases h with h | h <;> (unfold voiceTry at h; repeat' split at h) <;> cases h <;> rfl

/-- `sendChatMessage` never writes the staged-text global. -/
theorem sendChatMessage_scanText (s : PageState) (net : FetchOutcome) :
    (sendChatMessage s net).1.currentScanText = s.currentScanText := by
  unfold sendChatMessage
  simp only []
  split
  · rfl
  · cases net with
    | failure => rfl
    | success data =>
        cases hc : chatTry
            { s with chatBoxHTML := s.chatBoxHTML ++ userMsgDiv (jsTrim s.userQueryValue),
                     userQueryValue := "" } data with
        | ok t =>
            obtain ⟨_, _, h3, _⟩ := chatTry_fields _ t data (Or.inl hc)
            simp only [hc]
            exact h3
        | error t =>
            obtain ⟨_, _, h3, _⟩ := chatTry_fields _ t data (Or.inr hc)
            simp only [hc]
            exact h3

/-- `playResultVoice` never writes the staged-text global. -/
theorem playResultVoice_scanText (s : PageState) (net : FetchOutcome) :
    (playResultVoice s net).1.currentScanText = s.currentScanText := by
  unfold playResultVoice
  simp only []
  split
  · rfl
  · cases net with
    | failure => rfl
    | success data =>
        cases hv : voiceTry s data with
        | ok t =>
            have := voiceTry_scanText s t data (Or.inl hv)
            simp only [hv]
            exact this
        | error t =>
            have := voiceTry_scanText s t data (Or.inr hv)
            simp only [hv]
            exact this

/-- Every event either leaves the staged-text global untouched or is a
scan that completes the success branch through staging. -/
theorem stepState_scanText (s : PageState) (e : Event) :
    (stepState s e).currentScanText = s.currentScanText ∨ isSuccessfulScan e = true := by
  cases e with
  | chat net => exact Or.inl (sendChatMessage_scanText s net)
  | keypress key net =>
      by_cases hk : key = "Enter"
      · subst hk
        exact Or.inl (by
          simpa [stepState, stepEvent, keypressHandler] using sendChatMessage_scanText s net)
      · left
        simp [stepState, stepEvent, keypressHandler, hk]
  | setQuery v => exact Or.inl rfl
  | setLang v => exact Or.inl rfl
  | close => exact Or.inl rfl
  | play net => exact Or.inl (playResultVoice_scanText s net)
  | scan hasFile net =>
      cases hasFile with
      | false => exact Or.inl rfl
      | true =>
          cases net with
          | failure => exact Or.inl rfl
          | success data =>
              cases hsc : scanTry
                  { s with landmarkName := "Analyzing Landmark...", overlayHidden := false }
                  data with
              | ok t =>
                  rcases scanTry_ok_scanText _ t data hsc with h1 | h1
                  · left
                    simp only [stepState, stepEvent, scanHandler, hsc]
                    simpa using h1
                  · right
                    simpa [isSuccessfulScan] using h1
              | error t =>
                  left
                  have h1 := scanTry_error_scanText _ t data hsc
                  simp only [stepState, stepEvent, scanHandler, hsc]
                  simpa [scanCatch] using h1

/-- A truthy staged text after a run of events traces back either to a
staging scan among those events or to a truthy staged text at the start. -/
theorem foldl_scanText (events : List Event) (s : PageState)
    (h : JsValue.truthy (events.foldl stepState s).currentScanText = true) :
    (∃ e ∈ events, isSuccessfulScan e = true) ∨
    JsValue.truthy s.currentScanText = true := by
  induction events generalizing s with
  | nil => exact Or.inr h
  | cons e es ih =>
      rcases ih (stepState s e) h with h1 | h1
      · obtain ⟨e', he', hs'⟩ := h1
        exact Or.inl ⟨e', by simp [he'], hs'⟩
      · rcases stepState_scanText s e with h2 | h2
        · right
          rwa [h2] at h1
        · exact Or.inl ⟨e, by simp, h2⟩

/-- C7: in every state reachable in a page lifetime, the staged playback
text is truthy only if at least one scan completed its success branch
(through staging) among the events so far; and whenever the staged text is
falsy — in particular empty or unset — `playResultVoice` changes nothing
and issues no network request. -/
theorem scanText_requires_scan (lang0 : String) (events : List Event) :
    (JsValue.truthy (runTrace lang0 events).currentScanText = true →
       ∃ e ∈ events, isSuccessfulScan e = true) ∧
    (∀ s net, JsValue.truthy s.currentScanText = false →
       playResultVoice s net = (s, [])) := by
  constructor
  · intro h
    rcases foldl_scanText events (initState lang0) h with h1 | h1
    · exact h1
    · simp [initState, JsValue.truthy] at h1
  · intro s net h
    simp [playResultVoice, h]

/-- Witness for `scanText_requires_scan`: a one-event trace containing the
spec's sample successful scan, and the freshly loaded page on which
playback is invoked. -/
theorem scanText_requires_scan_witness :
    (∃ e ∈ [Event.scan true (.success sampleScanData)], isSuccessfulScan e = true) ∧
    playResultVoice (initState "en") .failure = (initState "en", []) :=
  ⟨(scanText_requires_scan "en" [Event.scan true (.success sampleScanData)]).1 (by decide),
   (scanText_requires_scan "en" []).2 (initState "en") .failure rfl⟩
